import Mathlib

/-!
Shallow embedding of the Smart Research Assistant front-end component
(src/smart-research-frontend/src/App.js).

The component holds seven pieces of state (the `useState` hooks at the top of
`App`): the selected file, the question text, the report text, two busy flags,
the upload outcome, and the drag-hover flag.  The two simulated asynchronous
operations (`uploadFile`, `askQuestion`) are embedded as functions returning
the list of observable states in order: the state that holds while the
simulated delay is pending, the state after the post-delay write, and the
state after the `finally` block.  Synchronous handlers return a single state.
`new Promise(resolve => setTimeout(resolve, ms))` always resolves, which the
embedding renders as a delay function that always returns `Except.ok`.

Event dispatch (`step`) mirrors the JSX wiring of `App`: the drop zone
attaches `onDragOver`, `onDragLeave` and `onDrop` (and no drag-enter
handler), the file input fires a change event unless disabled while
uploading, the question input fires change and Enter-key events unless
disabled while asking, and the two buttons invoke the simulated operations
unless disabled.
-/

namespace SmartResearch

/-- A browser `File` object as the component observes it: its `name` and its
declared MIME `type`. -/
structure FileRef where
  name : String
  type : String
deriving DecidableEq

/-- The `uploadStatus` value: `{ type: 'success', message }` or
`{ type: 'error', message }` (absent is `Option.none` at the use site). -/
inductive UploadStatus where
  | success (message : String)
  | error (message : String)
deriving DecidableEq

/-- The component state: the seven `useState` hooks of `App`. -/
structure AppState where
  file : Option FileRef
  question : String
  report : String
  isUploading : Bool
  isAsking : Bool
  uploadStatus : Option UploadStatus
  isDragging : Bool
deriving DecidableEq

/-- The initial state: `useState(null)`, `useState("")`, `useState("")`,
`useState(false)`, `useState(false)`, `useState(null)`, `useState(false)`. -/
def initialState : AppState :=
  { file := none, question := "", report := "", isUploading := false,
    isAsking := false, uploadStatus := none, isDragging := false }

/-- Embedding of `new Promise(resolve => setTimeout(resolve, ms))`: the timer
always fires and the promise always resolves, so this always returns `ok`. -/
def simulatedDelay (_ms : Nat) : Except String Unit :=
  Except.ok ()

/-- Model of the JavaScript built-in `String.prototype.trim` used by
`askQuestion` (`question.trim()` on lines 31 and 302): removes leading and
trailing whitespace.  Whitespace is modelled by `Char.isWhitespace`. -/
def jsTrim (s : String) : String :=
  ⟨(((s.data.dropWhile Char.isWhitespace).reverse).dropWhile Char.isWhitespace).reverse⟩

/-- The success message of line 22: `PDF uploaded: ${file.name}`. -/
def uploadMessage (f : FileRef) : String :=
  "PDF uploaded: " ++ f.name

/-- The part of the canned report of line 37 that precedes the echoed
question. -/
def reportPrefixText : String :=
  "Based on the uploaded document, here's what I found regarding \""

/-- The part of the canned report of line 37 that follows the echoed
question. -/
def reportSuffixText : String :=
  "\":\n\nThis is a simulated response that would contain detailed analysis from your PDF. The actual implementation would process the document and provide relevant insights based on your question.\n\nKey findings:\n• Point 1: Relevant information extracted\n• Point 2: Additional context provided\n• Point 3: Summary of findings\n\nThis response demonstrates the enhanced UI with smooth animations and premium styling."

/-- The canned report template of line 37, echoing the question verbatim. -/
def reportText (question : String) : String :=
  reportPrefixText ++ question ++ reportSuffixText

/-- The query failure message of line 39. -/
def queryErrorText : String :=
  "Error processing your question. Please try again."

/-- Embedding of `uploadFile` (App.js lines 14-28).  Returns the observable state
sequence: if no file is selected the handler returns at once (`[s]`);
otherwise the state with `isUploading := true` and the outcome cleared (held
during the 2-second delay), then the state after the delay settles (success
on `ok`, the error banner on `error`), then the state after `finally` resets
`isUploading`. -/
def uploadFile (s : AppState) : List AppState :=
  match s.file with
  | none => [s]
  | some f =>
    let s1 := { s with isUploading := true, uploadStatus := none }
    let s2 :=
      match simulatedDelay 2000 with
      | Except.ok _ =>
          { s1 with uploadStatus := some (UploadStatus.success (uploadMessage f)) }
      | Except.error _ =>
          { s1 with uploadStatus := some (UploadStatus.error "Upload failed. Please try again.") }
    let s3 := { s2 with isUploading := false }
    [s1, s2, s3]

/-- Embedding of `askQuestion` (App.js lines 30-43).  Returns the observable
state sequence: if `question.trim()` is empty the handler returns at once;
otherwise `isAsking := true` (held during the 3-second delay), then the
report write after the delay settles, then the `finally` reset. -/
def askQuestion (s : AppState) : List AppState :=
  if jsTrim s.question = "" then [s]
  else
    let s1 := { s with isAsking := true }
    let s2 :=
      match simulatedDelay 3000 with
      | Except.ok _ => { s1 with report := reportText s.question }
      | Except.error _ => { s1 with report := queryErrorText }
    let s3 := { s2 with isAsking := false }
    [s1, s2, s3]

/-- Embedding of `handleDragOver` (App.js lines 45-48). -/
def handleDragOver (s : AppState) : AppState :=
  { s with isDragging := true }

/-- Embedding of `handleDragLeave` (App.js lines 50-53). -/
def handleDragLeave (s : AppState) : AppState :=
  { s with isDragging := false }

/-- Embedding of `handleDrop` (App.js lines 55-62): clears the hover flag, then stores
`e.dataTransfer.files[0]` as the selected file only when it exists and its
declared type is exactly `application/pdf`. -/
def handleDrop (s : AppState) (files : List FileRef) : AppState :=
  let s1 := { s with isDragging := false }
  match files.head? with
  | some droppedFile =>
      if droppedFile.type = "application/pdf" then { s1 with file := some droppedFile }
      else s1
  | none => s1

/-- The user-interface events the rendered `App` wires up (lines 209-225,
243-245, 291-303): the drop zone handles drag-over, drag-leave and drop (a
drag-enter event has no handler), the file input fires change events with
the chosen file list, the question input fires change and Enter-key events,
and the two buttons fire clicks. -/
inductive UIEvent where
  | dragEnter
  | dragOver
  | dragLeave
  | dropFiles (files : List FileRef)
  | fileInputChange (files : List FileRef)
  | questionInput (text : String)
  | enterKeyPress
  | uploadClick
  | askClick
deriving DecidableEq

/-- One user event dispatched against the JSX wiring of `App`, yielding the
observable state sequence.  Disabled controls (`disabled={isUploading}` on
the file input, `disabled={isAsking}` on the question input,
`disabled={!file || isUploading}` and `disabled={!question.trim() || isAsking}`
on the buttons) deliver no event, embedded as the unchanged singleton. -/
def step (s : AppState) : UIEvent → List AppState
  | UIEvent.dragEnter => [s]
  | UIEvent.dragOver => [handleDragOver s]
  | UIEvent.dragLeave => [handleDragLeave s]
  | UIEvent.dropFiles files => [handleDrop s files]
  | UIEvent.fileInputChange files =>
      if s.isUploading then [s] else [{ s with file := files.head? }]
  | UIEvent.questionInput t =>
      if s.isAsking then [s] else [{ s with question := t }]
  | UIEvent.enterKeyPress =>
      if s.isAsking then [s] else askQuestion s
  | UIEvent.uploadClick =>
      if s.file.isNone || s.isUploading then [s] else uploadFile s
  | UIEvent.askClick =>
      if jsTrim s.question = "" || s.isAsking then [s] else askQuestion s

/-- A sample PDF file reference used as a concrete input. -/
def pdfFile : FileRef :=
  { name := "paper.pdf", type := "application/pdf" }

/-- A sample non-PDF file reference used as a concrete input. -/
def txtFile : FileRef :=
  { name := "notes.txt", type := "text/plain" }

/-- A state whose only difference from the initial one is a selected PDF. -/
def someFileState : AppState :=
  { initialState with file := some pdfFile }

/-- A state with a selected PDF and a leftover success outcome from an
earlier upload. -/
def priorOutcomeState : AppState :=
  { initialState with file := some pdfFile, uploadStatus := some (UploadStatus.success "PDF uploaded: paper.pdf") }

/-- A state whose question text is whitespace only. -/
def blankQuestionState : AppState :=
  { initialState with question := "   " }

/-- A state with a non-blank question, no selected file, and no upload ever
performed. -/
def questionOnlyState : AppState :=
  { initialState with question := "What is the main finding?" }

/-- The trimmed question is empty exactly when every character of the
question is whitespace (in particular when the question is empty). -/
theorem jsTrim_eq_empty_iff (s : String) :
    jsTrim s = "" ↔ ∀ c ∈ s.data, c.isWhitespace = true := by
  unfold jsTrim
  have h0 : ("" : String).data = [] := rfl
  rw [String.ext_iff, h0]
  dsimp only
  simp only [List.reverse_eq_nil_iff, List.dropWhile_eq_nil_iff, List.mem_reverse]
  constructor
  · intro h c hc
    rw [← List.takeWhile_append_dropWhile Char.isWhitespace s.data] at hc
    rcases List.mem_append.mp hc with h1 | h2
    · exact List.mem_takeWhile_imp h1
    · exact h c h2
  · intro h c hc
    have hc2 : c ∈ s.data.takeWhile Char.isWhitespace ++ s.data.dropWhile Char.isWhitespace :=
      List.mem_append_right _ hc
    rw [List.takeWhile_append_dropWhile] at hc2
    exact h c hc2

set_option maxRecDepth 4000 in
/-- The canned report is never the query failure message: it is longer than
the failure message for every question. -/
theorem reportText_ne_queryError (q : String) : reportText q ≠ queryErrorText := by
  intro h
  have hlen := congrArg String.length h
  rw [reportText, String.length_append, String.length_append] at hlen
  have h1 : reportPrefixText.length = 63 := by decide
  have h2 : reportSuffixText.length = 406 := by decide
  have h3 : queryErrorText.length = 49 := by decide
  rw [h1, h2, h3] at hlen
  omega

/-- Dropping never changes the report. -/
theorem handleDrop_report (s : AppState) (files : List FileRef) :
    (handleDrop s files).report = s.report := by
  unfold handleDrop
  cases hf : files.head? with
  | none => rfl
  | some f => by_cases hp : f.type = "application/pdf" <;> simp [hp]

/-- Dropping never changes the upload outcome. -/
theorem handleDrop_uploadStatus (s : AppState) (files : List FileRef) :
    (handleDrop s files).uploadStatus = s.uploadStatus := by
  unfold handleDrop
  cases hf : files.head? with
  | none => rfl
  | some f => by_cases hp : f.type = "application/pdf" <;> simp [hp]

/-- Dropping never changes the question text. -/
theorem handleDrop_question (s : AppState) (files : List FileRef) :
    (handleDrop s files).question = s.question := by
  unfold handleDrop
  cases hf : files.head? with
  | none => rfl
  | some f => by_cases hp : f.type = "application/pdf" <;> simp [hp]

/-- Dropping always clears the hover flag. -/
theorem handleDrop_isDragging (s : AppState) (files : List FileRef) :
    (handleDrop s files).isDragging = false := by
  unfold handleDrop
  cases hf : files.head? with
  | none => rfl
  | some f => by_cases hp : f.type = "application/pdf" <;> simp [hp]

/-- After a drop the selected file is either unchanged or replaced by the
first dropped file. -/
theorem handleDrop_file_cases (s : AppState) (files : List FileRef) :
    (handleDrop s files).file = s.file ∨
      ∃ f, files.head? = some f ∧ (handleDrop s files).file = some f := by
  unfold handleDrop
  cases hf : files.head? with
  | none => exact Or.inl rfl
  | some f =>
      by_cases hp : f.type = "application/pdf"
      · exact Or.inr ⟨f, rfl, by simp [hp]⟩
      · simp [hp]

/-- Every state reached during a query keeps the selected file, the upload
outcome and the question, and its report is the old one or the canned one. -/
theorem askQuestion_mem (s t : AppState) (ht : t ∈ askQuestion s) :
    t.file = s.file ∧ t.uploadStatus = s.uploadStatus ∧ t.question = s.question ∧
      (t.report = s.report ∨ t.report = reportText s.question) := by
  unfold askQuestion at ht
  by_cases hq : jsTrim s.question = ""
  · rw [if_pos hq] at ht
    simp only [List.mem_singleton] at ht
    subst ht
    exact ⟨rfl, rfl, rfl, Or.inl rfl⟩
  · rw [if_neg hq] at ht
    simp only [simulatedDelay, List.mem_cons, List.mem_singleton, List.not_mem_nil, or_false] at ht
    rcases ht with rfl | rfl | rfl
    · exact ⟨rfl, rfl, rfl, Or.inl rfl⟩
    · exact ⟨rfl, rfl, rfl, Or.inr rfl⟩
    · exact ⟨rfl, rfl, rfl, Or.inr rfl⟩

/-- Every state reached during an upload keeps the selected file, the
question and the report, and its outcome is the old one, cleared, or the
success value built from the selected file. -/
theorem uploadFile_mem (s t : AppState) (ht : t ∈ uploadFile s) :
    t.file = s.file ∧ t.question = s.question ∧ t.report = s.report ∧
      (t.uploadStatus = s.uploadStatus ∨ t.uploadStatus = none ∨
        ∃ f, s.file = some f ∧
          t.uploadStatus = some (UploadStatus.success (uploadMessage f))) := by
  unfold uploadFile at ht
  cases hf : s.file with
  | none =>
      rw [hf] at ht
      simp only [List.mem_singleton] at ht
      subst ht
      exact ⟨hf, rfl, rfl, Or.inl rfl⟩
  | some f =>
      rw [hf] at ht
      simp only [simulatedDelay, List.mem_cons, List.mem_singleton, List.not_mem_nil,
        or_false] at ht
      rcases ht with rfl | rfl | rfl
      · exact ⟨rfl, rfl, rfl, Or.inr (Or.inl rfl)⟩
      · exact ⟨rfl, rfl, rfl, Or.inr (Or.inr ⟨f, rfl, rfl⟩)⟩
      · exact ⟨rfl, rfl, rfl, Or.inr (Or.inr ⟨f, rfl, rfl⟩)⟩

/-- Claim C1: with a file selected, invoking upload keeps the uploading flag
true for the whole delay window (the first trace state, held while the
2-second timer is pending, and the post-delay write), sets the outcome to a
success value whose message contains the selected file's name, and finally
resets the uploading flag. -/
theorem uploadFile_success_spec (s : AppState) (f : FileRef) (h : s.file = some f) :
    uploadFile s =
      [{ s with isUploading := true, uploadStatus := none },
       { s with isUploading := true, uploadStatus := some (UploadStatus.success (uploadMessage f)) },
       { s with isUploading := false, uploadStatus := some (UploadStatus.success (uploadMessage f)) }] ∧
    ∃ pre post, uploadMessage f = pre ++ (f.name ++ post) := by
  constructor
  · unfold uploadFile
    rw [h]
    rfl
  · exact ⟨"PDF uploaded: ", "", by rw [String.append_empty]; rfl⟩

/-- Witness for `uploadFile_success_spec` at a state with a selected PDF. -/
theorem uploadFile_success_spec_witness :
    someFileState.file = some pdfFile ∧
      (uploadFile someFileState =
        [{ someFileState with isUploading := true, uploadStatus := none },
         { someFileState with isUploading := true, uploadStatus := some (UploadStatus.success (uploadMessage pdfFile)) },
         { someFileState with isUploading := false, uploadStatus := some (UploadStatus.success (uploadMessage pdfFile)) }] ∧
       ∃ pre post, uploadMessage pdfFile = pre ++ (pdfFile.name ++ post)) :=
  ⟨rfl, uploadFile_success_spec someFileState pdfFile rfl⟩

/-- Claim C2: with a non-blank question, invoking query keeps the asking flag
true for the whole delay window (the first trace state, held while the
3-second timer is pending, and the post-delay write), writes the canned
report containing the submitted question verbatim, and finally resets the
asking flag. -/
theorem askQuestion_success_spec (s : AppState) (h : jsTrim s.question ≠ "") :
    askQuestion s =
      [{ s with isAsking := true },
       { s with isAsking := true, report := reportText s.question },
       { s with isAsking := false, report := reportText s.question }] ∧
    ∃ pre post, reportText s.question = pre ++ (s.question ++ post) := by
  constructor
  · unfold askQuestion
    rw [if_neg h]
    rfl
  · exact ⟨reportPrefixText, reportSuffixText, by rw [reportText, String.append_assoc]⟩

/-- Witness for `askQuestion_success_spec` at a state with a real question. -/
theorem askQuestion_success_spec_witness :
    jsTrim questionOnlyState.question ≠ "" ∧
      (askQuestion questionOnlyState =
        [{ questionOnlyState with isAsking := true },
         { questionOnlyState with isAsking := true, report := reportText questionOnlyState.question },
         { questionOnlyState with isAsking := false, report := reportText questionOnlyState.question }] ∧
       ∃ pre post, reportText questionOnlyState.question = pre ++ (questionOnlyState.question ++ post)) :=
  ⟨by decide, askQuestion_success_spec questionOnlyState (by decide)⟩

/-- Claim C3: with no file selected, invoking upload is a no-op: the handler
returns before touching any state, so the only observable state is the
unchanged one. -/
theorem uploadFile_noop_spec (s : AppState) (h : s.file = none) :
    uploadFile s = [s] := by
  unfold uploadFile
  rw [h]

/-- Witness for `uploadFile_noop_spec` at the initial state. -/
theorem uploadFile_noop_spec_witness :
    initialState.file = none ∧ uploadFile initialState = [initialState] :=
  ⟨rfl, uploadFile_noop_spec initialState rfl⟩

/-- Claim C4: with an empty or whitespace-only question, invoking query is a
no-op: the handler returns before touching any state, so the only observable
state is the unchanged one. -/
theorem askQuestion_noop_spec (s : AppState)
    (h : ∀ c ∈ s.question.data, c.isWhitespace = true) :
    askQuestion s = [s] := by
  have hq : jsTrim s.question = "" := (jsTrim_eq_empty_iff s.question).mpr h
  unfold askQuestion
  rw [if_pos hq]

/-- Witness for `askQuestion_noop_spec` at a whitespace-only question. -/
theorem askQuestion_noop_spec_witness :
    (∀ c ∈ blankQuestionState.question.data, c.isWhitespace = true) ∧
      askQuestion blankQuestionState = [blankQuestionState] :=
  ⟨by decide, askQuestion_noop_spec blankQuestionState (by decide)⟩

/-- Claim C5: a drop whose first item declares type `application/pdf` stores
that item as the selected file; any other declared type leaves the selected
file unchanged, and in either case no error is surfaced (the outcome, the
report and the question are untouched). -/
theorem handleDrop_spec (s : AppState) (f : FileRef) (rest : List FileRef) :
    (handleDrop s (f :: rest)).file = (if f.type = "application/pdf" then some f else s.file) ∧
    (handleDrop s (f :: rest)).report = s.report ∧
    (handleDrop s (f :: rest)).uploadStatus = s.uploadStatus ∧
    (handleDrop s (f :: rest)).question = s.question := by
  refine ⟨?_, handleDrop_report s (f :: rest), handleDrop_uploadStatus s (f :: rest),
    handleDrop_question s (f :: rest)⟩
  unfold handleDrop
  by_cases hp : f.type = "application/pdf" <;> simp [hp]

/-- Claim C6 (amended): a drag-over event sets the hover flag to true, a
drag-leave event clears it, and a drop event clears it; a drag-enter event
has no attached handler and leaves the state unchanged. -/
theorem drag_event_effects (s : AppState) (files : List FileRef) :
    step s UIEvent.dragEnter = [s] ∧
    step s UIEvent.dragOver = [{ s with isDragging := true }] ∧
    step s UIEvent.dragLeave = [{ s with isDragging := false }] ∧
    step s (UIEvent.dropFiles files) = [handleDrop s files] ∧
    (handleDrop s files).isDragging = false :=
  ⟨rfl, rfl, rfl, rfl, handleDrop_isDragging s files⟩

/-- Counterexample to claim C6 as stated: the drop zone wires only
`onDragOver`, `onDragLeave` and `onDrop`, so a drag-enter event over the
initial state leaves the hover flag false instead of setting it to true. -/
theorem dragEnter_counterexample :
    step initialState UIEvent.dragEnter = [initialState] ∧
      initialState.isDragging = false :=
  ⟨rfl, rfl⟩

/-- Claim C7: the error branches are unreachable: since the simulated delay
always succeeds, no state reached during an upload carries an error outcome
(so the upload failure banner never shows), and no state reached during a
query carries the query failure message (so the failure text never shows),
provided the starting state does not already carry them. -/
theorem error_branch_unreachable (s : AppState)
    (hu : ∀ m, s.uploadStatus ≠ some (UploadStatus.error m))
    (hr : s.report ≠ queryErrorText) :
    (∀ t ∈ uploadFile s, ∀ m, t.uploadStatus ≠ some (UploadStatus.error m)) ∧
    (∀ t ∈ askQuestion s, t.report ≠ queryErrorText) := by
  constructor
  · intro t ht m
    rcases (uploadFile_mem s t ht).2.2.2 with h1 | h1 | ⟨f, _, h1⟩
    · rw [h1]; exact hu m
    · rw [h1]; simp
    · rw [h1]; simp
  · intro t ht
    rcases (askQuestion_mem s t ht).2.2.2 with h1 | h1
    · rw [h1]; exact hr
    · rw [h1]; exact reportText_ne_queryError s.question

/-- Witness for `error_branch_unreachable` at a clean state with a real
question. -/
theorem error_branch_unreachable_witness :
    (∀ m, questionOnlyState.uploadStatus ≠ some (UploadStatus.error m)) ∧
      questionOnlyState.report ≠ queryErrorText ∧
      ((∀ t ∈ uploadFile questionOnlyState, ∀ m,
          t.uploadStatus ≠ some (UploadStatus.error m)) ∧
       (∀ t ∈ askQuestion questionOnlyState, t.report ≠ queryErrorText)) :=
  ⟨fun _ hx => Option.noConfusion hx, by decide,
    error_branch_unreachable questionOnlyState (fun _ hx => Option.noConfusion hx) (by decide)⟩

/-- Claim C8 (amended): the upload outcome is modified only by the upload
operation, which clears it at the start of an attempt and sets it to the
success value built from the selected file at the end; no other operation
ever changes it. -/
theorem uploadStatus_change_only_by_upload (s : AppState) (e : UIEvent) (t : AppState)
    (ht : t ∈ step s e) (hch : t.uploadStatus ≠ s.uploadStatus) :
    e = UIEvent.uploadClick ∧
      (t.uploadStatus = none ∨
        ∃ f, s.file = some f ∧
          t.uploadStatus = some (UploadStatus.success (uploadMessage f))) := by
  cases e with
  | dragEnter =>
      simp only [step, List.mem_singleton] at ht
      subst ht; exact absurd rfl hch
  | dragOver =>
      simp only [step, List.mem_singleton] at ht
      subst ht; exact absurd rfl hch
  | dragLeave =>
      simp only [step, List.mem_singleton] at ht
      subst ht; exact absurd rfl hch
  | dropFiles files =>
      simp only [step, List.mem_singleton] at ht
      subst ht; exact absurd (handleDrop_uploadStatus s files) hch
  | fileInputChange files =>
      simp only [step] at ht
      by_cases hb : s.isUploading = true
      · rw [if_pos hb] at ht; simp only [List.mem_singleton] at ht
        subst ht; exact absurd rfl hch
      · rw [if_neg hb] at ht; simp only [List.mem_singleton] at ht
        subst ht; exact absurd rfl hch
  | questionInput txt =>
      simp only [step] at ht
      by_cases hb : s.isAsking = true
      · rw [if_pos hb] at ht; simp only [List.mem_singleton] at ht
        subst ht; exact absurd rfl hch
      · rw [if_neg hb] at ht; simp only [List.mem_singleton] at ht
        subst ht; exact absurd rfl hch
  | enterKeyPress =>
      simp only [step] at ht
      by_cases hb : s.isAsking = true
      · rw [if_pos hb] at ht; simp only [List.mem_singleton] at ht
        subst ht; exact absurd rfl hch
      · rw [if_neg hb] at ht
        exact absurd (askQuestion_mem s t ht).2.1 hch
  | askClick =>
      simp only [step] at ht
      by_cases hb : (decide (jsTrim s.question = "") || s.isAsking) = true
      · rw [if_pos hb] at ht; simp only [List.mem_singleton] at ht
        subst ht; exact absurd rfl hch
      · rw [if_neg hb] at ht
        exact absurd (askQuestion_mem s t ht).2.1 hch
  | uploadClick =>
      simp only [step] at ht
      by_cases hb : (s.file.isNone || s.isUploading) = true
      · rw [if_pos hb] at ht; simp only [List.mem_singleton] at ht
        subst ht; exact absurd rfl hch
      · rw [if_neg hb] at ht
        refine ⟨rfl, ?_⟩
        rcases (uploadFile_mem s t ht).2.2.2 with h1 | h1 | ⟨f, hf, h1⟩
        · exact absurd h1 hch
        · exact Or.inl h1
        · exact Or.inr ⟨f, hf, h1⟩

/-- Witness for `uploadStatus_change_only_by_upload`: clicking upload on a
state with a leftover outcome reaches the cleared state. -/
theorem uploadStatus_change_only_by_upload_witness :
    (({ priorOutcomeState with isUploading := true, uploadStatus := none } : AppState) ∈
        step priorOutcomeState UIEvent.uploadClick) ∧
      ({ priorOutcomeState with isUploading := true, uploadStatus := none } : AppState).uploadStatus ≠
        priorOutcomeState.uploadStatus ∧
      (UIEvent.uploadClick = UIEvent.uploadClick ∧
        (({ priorOutcomeState with isUploading := true, uploadStatus := none } : AppState).uploadStatus = none ∨
          ∃ f, priorOutcomeState.file = some f ∧
            ({ priorOutcomeState with isUploading := true, uploadStatus := none } : AppState).uploadStatus =
              some (UploadStatus.success (uploadMessage f)))) :=
  ⟨by decide, by decide,
    uploadStatus_change_only_by_upload priorOutcomeState UIEvent.uploadClick
      { priorOutcomeState with isUploading := true, uploadStatus := none } (by decide) (by decide)⟩

/-- Counterexample to claim C8 as stated: `uploadFile` writes the outcome at
its start, not only at its end: on a state with a leftover success outcome
and a selected file, the first state of the upload trace (reached while the
delay is still pending) already has the outcome cleared to absent. -/
theorem uploadStatus_cleared_counterexample :
    (uploadFile priorOutcomeState).head? =
        some { priorOutcomeState with isUploading := true, uploadStatus := none } ∧
      priorOutcomeState.uploadStatus ≠ none ∧
      ({ priorOutcomeState with isUploading := true, uploadStatus := none } : AppState).uploadStatus = none :=
  ⟨rfl, by decide, rfl⟩

/-- Claim C9 (amended): the only operation that can remove the selected file
is a file-input change event whose file list is empty; every other event
(drop, upload, query, drag events, question edits, and any change event
carrying a file) keeps a selected file present. -/
theorem file_unset_only_by_empty_change (s : AppState) (e : UIEvent) (t : AppState)
    (ht : t ∈ step s e) (hs : s.file.isSome = true) (hn : t.file = none) :
    e = UIEvent.fileInputChange [] := by
  cases e with
  | dragEnter =>
      simp only [step, List.mem_singleton] at ht
      subst ht; rw [hn] at hs; simp at hs
  | dragOver =>
      simp only [step, List.mem_singleton] at ht
      subst ht
      have hsf : s.file = none := hn
      rw [hsf] at hs; simp at hs
  | dragLeave =>
      simp only [step, List.mem_singleton] at ht
      subst ht
      have hsf : s.file = none := hn
      rw [hsf] at hs; simp at hs
  | dropFiles files =>
      simp only [step, List.mem_singleton] at ht
      subst ht
      rcases handleDrop_file_cases s files with h1 | ⟨f, _, h1⟩
      · rw [h1] at hn; rw [hn] at hs; simp at hs
      · rw [h1] at hn; exact absurd hn (by simp)
  | fileInputChange files =>
      simp only [step] at ht
      by_cases hb : s.isUploading = true
      · rw [if_pos hb] at ht; simp only [List.mem_singleton] at ht
        subst ht; rw [hn] at hs; simp at hs
      · rw [if_neg hb] at ht; simp only [List.mem_singleton] at ht
        subst ht
        have hhd : files.head? = none := hn
        rw [List.head?_eq_none_iff.mp hhd]
  | questionInput txt =>
      simp only [step] at ht
      by_cases hb : s.isAsking = true
      · rw [if_pos hb] at ht; simp only [List.mem_singleton] at ht
        subst ht; rw [hn] at hs; simp at hs
      · rw [if_neg hb] at ht; simp only [List.mem_singleton] at ht
        subst ht
        have hsf : s.file = none := hn
        rw [hsf] at hs; simp at hs
  | enterKeyPress =>
      simp only [step] at ht
      by_cases hb : s.isAsking = true
      · rw [if_pos hb] at ht; simp only [List.mem_singleton] at ht
        subst ht; rw [hn] at hs; simp at hs
      · rw [if_neg hb] at ht
        rw [(askQuestion_mem s t ht).1] at hn
        rw [hn] at hs; simp at hs
  | askClick =>
      simp only [step] at ht
      by_cases hb : (decide (jsTrim s.question = "") || s.isAsking) = true
      · rw [if_pos hb] at ht; simp only [List.mem_singleton] at ht
        subst ht; rw [hn] at hs; simp at hs
      · rw [if_neg hb] at ht
        rw [(askQuestion_mem s t ht).1] at hn
        rw [hn] at hs; simp at hs
  | uploadClick =>
      simp only [step] at ht
      by_cases hb : (s.file.isNone || s.isUploading) = true
      · rw [if_pos hb] at ht; simp only [List.mem_singleton] at ht
        subst ht; rw [hn] at hs; simp at hs
      · rw [if_neg hb] at ht
        rw [(uploadFile_mem s t ht).1] at hn
        rw [hn] at hs; simp at hs

/-- Witness for `file_unset_only_by_empty_change`: a change event with an
empty file list on a state holding a PDF reaches the file-less state. -/
theorem file_unset_only_by_empty_change_witness :
    (({ someFileState with file := none } : AppState) ∈
        step someFileState (UIEvent.fileInputChange [])) ∧
      someFileState.file.isSome = true ∧
      ({ someFileState with file := none } : AppState).file = none ∧
      UIEvent.fileInputChange ([] : List FileRef) = UIEvent.fileInputChange [] :=
  ⟨by decide, rfl, rfl,
    file_unset_only_by_empty_change someFileState (UIEvent.fileInputChange [])
      { someFileState with file := none } (by decide) rfl rfl⟩

/-- Counterexample to claim C9 as stated: `onChange={e => setFile(e.target.files[0])}`
stores the first file of the change event unconditionally, so a file-input
change event carrying an empty file list removes a present selected file
rather than replacing it. -/
theorem file_cleared_counterexample :
    someFileState.file.isSome = true ∧
      step someFileState (UIEvent.fileInputChange []) = [{ someFileState with file := none }] ∧
      ({ someFileState with file := none } : AppState).file = none :=
  ⟨rfl, by decide, rfl⟩

/-- Claim C10: the query does not depend on any file: on a state with no
selected file and no upload outcome it still produces the full trace and the
canned report, and on every state the query changes neither the selected
file nor the upload outcome at any point of its trace. -/
theorem askQuestion_file_independent (s : AppState) (h : jsTrim s.question ≠ "") :
    askQuestion { s with file := none, uploadStatus := none } =
      [{ s with file := none, uploadStatus := none, isAsking := true },
       { s with file := none, uploadStatus := none, isAsking := true, report := reportText s.question },
       { s with file := none, uploadStatus := none, isAsking := false, report := reportText s.question }] ∧
    (askQuestion s).map AppState.file = [s.file, s.file, s.file] ∧
    (askQuestion s).map AppState.uploadStatus = [s.uploadStatus, s.uploadStatus, s.uploadStatus] := by
  have h2 : jsTrim ({ s with file := none, uploadStatus := none } : AppState).question ≠ "" := h
  refine ⟨?_, ?_, ?_⟩
  · unfold askQuestion
    rw [if_neg h2]
    rfl
  · unfold askQuestion
    rw [if_neg h]
    rfl
  · unfold askQuestion
    rw [if_neg h]
    rfl

/-- Witness for `askQuestion_file_independent` at a state that never saw a
file or an upload. -/
theorem askQuestion_file_independent_witness :
    jsTrim questionOnlyState.question ≠ "" ∧
      (askQuestion { questionOnlyState with file := none, uploadStatus := none } =
        [{ questionOnlyState with file := none, uploadStatus := none, isAsking := true },
         { questionOnlyState with file := none, uploadStatus := none, isAsking := true, report := reportText questionOnlyState.question },
         { questionOnlyState with file := none, uploadStatus := none, isAsking := false, report := reportText questionOnlyState.question }] ∧
       (askQuestion questionOnlyState).map AppState.file =
          [questionOnlyState.file, questionOnlyState.file, questionOnlyState.file] ∧
       (askQuestion questionOnlyState).map AppState.uploadStatus =
          [questionOnlyState.uploadStatus, questionOnlyState.uploadStatus, questionOnlyState.uploadStatus]) :=
  ⟨by decide, askQuestion_file_independent questionOnlyState (by decide)⟩

end SmartResearch
